import Mathlib

/-!
Shallow embedding of the JSON-RPC dispatch engine of `starknet_devnet`
(`blueprints/rpc/routes.py`), the origin abstraction (`origin.py`) and the
process-wide error fallback (`server.py`), together with theorems checking
the natural-language specification against it.

JSON values are modelled by an inductive type; Python dictionaries by
association lists; Python exceptions by an explicit `Exc` type threaded
through `Except`.
-/

/-- A JSON value, as produced by Flask's `request.json`. -/
inductive Json where
  | null
  | bool (b : Bool)
  | num (n : Int)
  | str (s : String)
  | arr (xs : List Json)
  | obj (fields : List (String × Json))

/-- Python truthiness of a JSON value (`bool(x)` for the corresponding
Python object): `None`, `False`, `0`, the empty string, the empty list and
the empty dict are falsy, everything else is truthy. -/
def jsonTruthy : Json → Bool
  | .null => false
  | .bool b => b
  | .num n => n != 0
  | .str s => s != ""
  | .arr xs => !xs.isEmpty
  | .obj fields => !fields.isEmpty

/-- First-match lookup in an association list modelling a Python dict. -/
def lookupField : List (String × Json) → String → Option Json
  | [], _ => none
  | (k, v) :: rest, key => if k = key then some v else lookupField rest key

/-- Is the value a JSON null (top-level constructor check)? -/
def Json.isNull : Json → Bool
  | .null => true
  | _ => false

/-- A Python exception, restricted to the kinds that can arise in the
dispatcher slice. `rpcError` models the `RpcError` class of
`structures/types.py`; `starkException` models
`starkware.starkware_utils.error_handling.StarkException` (of which the
`StarknetDevnetException` raised by `origin.py` is a subclass). -/
inductive Exc where
  | keyError (key : String)
  | typeError (msg : String)
  | attributeError (msg : String)
  | runtimeError (msg : String)
  | rpcError (code : Int) (message : String)
  | starkException (message : String) (status_code : Int)
  | otherExc (name : String)

/-- `e` is a Python `TypeError` (the only kind matched by the dispatcher's
first `except` clause). -/
def Exc.isTypeError : Exc → Bool
  | .typeError _ => true
  | _ => false

/-- `e` is a domain-level `RpcError` (matched by the dispatcher's second
`except` clause). -/
def Exc.isRpcError : Exc → Bool
  | .rpcError _ _ => true
  | _ => false

/-- Python subscripting `body[key]`: on a dict it yields the value or a
`KeyError`; on any non-dict JSON value it raises the `TypeError` CPython
raises for that type. -/
def pySubscript (body : Json) (key : String) : Except Exc Json :=
  match body with
  | .obj fields =>
    match lookupField fields key with
    | some v => .ok v
    | none => .error (.keyError key)
  | .str _ => .error (.typeError "string indices must be integers")
  | .arr _ => .error (.typeError "list indices must be integers or slices, not str")
  | .null => .error (.typeError "\x27NoneType\x27 object is not subscriptable")
  | .bool _ => .error (.typeError "\x27bool\x27 object is not subscriptable")
  | .num _ => .error (.typeError "\x27int\x27 object is not subscriptable")

/-- Python `body.get(key)` on a dict: the value if present, else `None`.
(Only reached after `body["method"]` succeeded, so `body` is a dict.) -/
def pyGetField (body : Json) (key : String) : Json :=
  match body with
  | .obj fields => (lookupField fields key).getD .null
  | _ => .null

/-- `body.get("params") or {}`: a falsy value (absent, `None`, `0`, `False`,
empty string/list/dict) is replaced by the empty dict. -/
def normalizeParams (v : Json) : Json :=
  if jsonTruthy v then v else .obj []

/-- One step of Python `str.replace` scanning, fuelled by the remaining
length (the pattern is nonempty in every use, so one unit of fuel per
consumed character suffices). -/
def pyReplaceAux : Nat → List Char → List Char → List Char → List Char
  | 0, _, _, s => s
  | _ + 1, _, _, [] => []
  | fuel + 1, pat, rep, c :: rest =>
    if pat.isPrefixOf (c :: rest) then
      rep ++ pyReplaceAux fuel pat rep (List.drop pat.length (c :: rest))
    else
      c :: pyReplaceAux fuel pat rep rest

/-- Python `s.replace(pat, rep)` for a nonempty pattern: every
non-overlapping occurrence of `pat` in `s`, scanned left to right, is
replaced by `rep`. -/
def pyReplace (s pat rep : String) : String :=
  ⟨pyReplaceAux s.length pat.data rep.data s.data⟩

/-- The handler functions registered in the `methods` dict of `routes.py`
(the handlers themselves live in modules outside this slice, so they are
represented by name only). -/
inductive Handler where
  | get_block_with_tx_hashes
  | get_block_with_txs
  | get_state_update
  | get_storage_at
  | get_transaction_by_hash
  | get_transaction_by_block_id_and_index
  | get_transaction_receipt
  | get_class
  | get_class_hash_at
  | get_class_at
  | get_block_transaction_count
  | call
  | estimate_fee
  | block_number
  | block_hash_and_number
  | chain_id
  | pending_transactions
  | syncing
  | get_events
  | get_nonce
  | add_invoke_transaction
  | add_declare_transaction
  | add_deploy_transaction
deriving DecidableEq

/-- The `methods` registry of `routes.py`: bare method name to handler. -/
def methods : List (String × Handler) := [
  ("getBlockWithTxHashes", .get_block_with_tx_hashes),
  ("getBlockWithTxs", .get_block_with_txs),
  ("getStateUpdate", .get_state_update),
  ("getStorageAt", .get_storage_at),
  ("getTransactionByHash", .get_transaction_by_hash),
  ("getTransactionByBlockIdAndIndex", .get_transaction_by_block_id_and_index),
  ("getTransactionReceipt", .get_transaction_receipt),
  ("getClass", .get_class),
  ("getClassHashAt", .get_class_hash_at),
  ("getClassAt", .get_class_at),
  ("getBlockTransactionCount", .get_block_transaction_count),
  ("call", .call),
  ("estimateFee", .estimate_fee),
  ("blockNumber", .block_number),
  ("blockHashAndNumber", .block_hash_and_number),
  ("chainId", .chain_id),
  ("pendingTransactions", .pending_transactions),
  ("syncing", .syncing),
  ("getEvents", .get_events),
  ("getNonce", .get_nonce),
  ("addInvokeTransaction", .add_invoke_transaction),
  ("addDeclareTransaction", .add_declare_transaction),
  ("addDeployTransaction", .add_deploy_transaction)]

/-- Lookup of a bare method name in the registry (`method_name in methods`
followed by `methods[method_name]`). -/
def lookupHandler : List (String × Handler) → String → Option Handler
  | [], _ => none
  | (k, v) :: rest, key => if k = key then some v else lookupHandler rest key

/-- Modelled from the spec: the symbolic error codes of `RpcErrorCode` in
`structures/types.py` (a module not present in this slice); their numeric
values follow the JSON-RPC contract the spec names as the fixed external
contract. -/
inductive RpcErrorCode where
  | INVALID_REQUEST
  | METHOD_NOT_FOUND
  | INVALID_PARAMS
deriving DecidableEq

/-- Modelled from the spec: the `.value` of each `RpcErrorCode` member. -/
def RpcErrorCode.value : RpcErrorCode → Int
  | .INVALID_REQUEST => -32600
  | .METHOD_NOT_FOUND => -32601
  | .INVALID_PARAMS => -32602

/-- The body of the `try` block of `parse_body` (lines 97-99 of
`routes.py`): extract and namespace-strip the method name, normalize
`params`, extract the message id. Each step may raise, in source order:
`body["method"]` (KeyError / TypeError / AttributeError when the value has
no `.replace`), then `body.get("params") or {}` (never raises), then
`body["id"]` (KeyError / TypeError). -/
def parse_body_extract (body : Json) : Except Exc (String × Json × Json) :=
  match pySubscript body "method" with
  | .error e => .error e
  | .ok (.str method_str) =>
    let method_name := pyReplace method_str "starknet_" ""
    let params := normalizeParams (pyGetField body "params")
    match pySubscript body "id" with
    | .error e => .error e
    | .ok message_id => .ok (method_name, params, message_id)
  | .ok _ => .error (.attributeError "object has no attribute replace")

/-- The `except RuntimeError` clause of `parse_body`: a `RuntimeError`
becomes `RpcError(INVALID_REQUEST, "Invalid request")`; every other
exception propagates. (No step of the `try` block actually raises
`RuntimeError`, so this clause is dead code in the source.) -/
def catchRuntimeErrorAsInvalidRequest (r : Except Exc (String × Json × Json)) :
    Except Exc (String × Json × Json) :=
  match r with
  | .error (.runtimeError _) =>
    .error (.rpcError RpcErrorCode.INVALID_REQUEST.value "Invalid request")
  | other => other

/-- `params` passes the `isinstance(params, (List, Dict))` check. -/
def jsonIsListOrDict : Json → Bool
  | .arr _ => true
  | .obj _ => true
  | _ => false

/-- `parse_body` of `routes.py`: extraction under the `try`, then the
registry check (`MethodNotFound`), then the params-shape check
(`InvalidParams`). -/
def parse_body (body : Json) : Except Exc (Handler × Json × Json) :=
  match catchRuntimeErrorAsInvalidRequest (parse_body_extract body) with
  | .error e => .error e
  | .ok (method_name, params, message_id) =>
    match lookupHandler methods method_name with
    | none =>
      .error (.rpcError RpcErrorCode.METHOD_NOT_FOUND.value "Method not found")
    | some handler =>
      if jsonIsListOrDict params then .ok (handler, params, message_id)
      else .error (.rpcError RpcErrorCode.INVALID_PARAMS.value "Invalid params")

/-- How the dispatcher binds `params` to the resolved handler:
`method(*params)` for a list, `method(**params)` for a dict. -/
inductive Binding where
  | positional (args : List Json)
  | named (kwargs : List (String × Json))

/-- Outcome of invoking a handler on bound parameters: a return value, or a
raised exception (a binding failure surfaces as a raised `TypeError`). -/
inductive CallResult where
  | ok (v : Json)
  | raise (e : Exc)

/-- `method(*params) if isinstance(params, list) else method(**params)`.
The handlers themselves are outside this slice, so the call is a parameter
`invoke`. (`params` is always a list or dict here; on any other value
`**params` would raise a `TypeError`, modelled in the last branch.) -/
def dispatchCall (invoke : Handler → Binding → CallResult) (handler : Handler)
    (params : Json) : CallResult :=
  match params with
  | .arr xs => invoke handler (.positional xs)
  | .obj fields => invoke handler (.named fields)
  | _ => .raise (.typeError "argument after ** must be a mapping")

/-- Modelled from the spec: `rpc_response` of `blueprints/rpc/utils.py`
(not in this slice) builds the success envelope carrying the request id and
the result. -/
def rpc_response (message_id : Json) (content : Json) : Json :=
  .obj [("id", message_id), ("result", content)]

/-- Modelled from the spec: `rpc_error` of `blueprints/rpc/utils.py` (not
in this slice) builds the error envelope carrying the request id and an
error object with `code` and `message`. -/
def rpc_error (message_id : Json) (code : Int) (message : String) : Json :=
  .obj [("id", message_id), ("error",
    .obj [("code", .num code), ("message", .str message)])]

/-- The `id` field of a response envelope, when present. -/
def responseId (resp : Json) : Option Json :=
  match resp with
  | .obj fields => lookupField fields "id"
  | _ => none

/-- Does the envelope carry an `error` field? -/
def respIsError (resp : Json) : Bool :=
  match resp with
  | .obj fields => (lookupField fields "error").isSome
  | _ => false

/-- What `base_route` produces: an HTTP response, or an exception escaping
past the dispatcher to the surrounding WSGI machinery. -/
inductive HttpOutcome where
  | response (resp : Json)
  | escaped (e : Exc)

/-- An outcome carries an `error` envelope. -/
def outcomeIsError : HttpOutcome → Bool
  | .response resp => respIsError resp
  | .escaped _ => false

/-- The post-parse part of `base_route`: the handler call's outcome under
the dispatcher's two `except` clauses (`TypeError` → code 22 with the
failure description; `RpcError` → its code and message; anything else
escapes). At this point `message_id` has been bound by the tuple
assignment. -/
def respondCall (r : CallResult) (message_id : Json) : HttpOutcome :=
  match r with
  | .ok v => .response (rpc_response message_id v)
  | .raise (.typeError msg) => .response (rpc_error message_id 22 msg)
  | .raise (.rpcError code message) => .response (rpc_error message_id code message)
  | .raise e => .escaped e

/-- `base_route` of `routes.py`. `message_id` starts as `None`; if
`parse_body` raises, the tuple assignment never happens, so the two
`except` clauses render their envelopes with a `null` id; a `KeyError` or
any other uncaught kind escapes the route. -/
def base_route (invoke : Handler → Binding → CallResult) (body : Json) :
    HttpOutcome :=
  match parse_body body with
  | .ok (handler, params, message_id) =>
    respondCall (dispatchCall invoke handler params) message_id
  | .error (.typeError msg) => .response (rpc_error .null 22 msg)
  | .error (.rpcError code message) => .response (rpc_error .null code message)
  | .error e => .escaped e

/-- The `StarkException` of `starkware.starkware_utils.error_handling`, as
used by the `@app.errorhandler(StarkException)` fallback in `server.py`: it
carries a message and an HTTP status code. -/
structure StarkException where
  message : String
  status_code : Int

/-- `handle` of `server.py`: the process-wide fallback renders a bare
JSON object with `message` and `status_code` fields, served at the
exception's status code — no JSON-RPC envelope. -/
def handle (error : StarkException) : Json × Int :=
  (.obj [("message", .str error.message), ("status_code", .num error.status_code)],
   error.status_code)

/-- Modelled from the spec: `StarknetDevnetException` of `util.py` (not in
this slice) — the domain NotFound error raised by `origin.py`, carrying a
message (it is a `StarkException` subclass). -/
structure StarknetDevnetException where
  message : String

/-- Python truthiness of an optional string (`if block_hash:`): `None` and
the empty string are falsy. -/
def pyTruthyStrOpt : Option String → Bool
  | none => false
  | some s => s != ""

/-- Python `str()` of an optional string as interpolated by an f-string. -/
def pyStrOfStrOpt : Option String → String
  | none => "None"
  | some s => s

/-- Python `str()` of an optional integer as interpolated by an f-string. -/
def pyStrOfIntOpt : Option Int → String
  | none => "None"
  | some n => toString n

/-- `NullOrigin.get_state_update` of `origin.py`: a truthy `block_hash`
raises NotFound naming the hash; else a present `block_number` (even `0`)
raises NotFound naming the number; else the function falls through,
returning `None`. -/
def NullOrigin.get_state_update (block_hash : Option String := none)
    (block_number : Option Int := none) :
    Except StarknetDevnetException (Option Json) :=
  if pyTruthyStrOpt block_hash then
    .error { message :=
      "No state updates saved for the provided block hash " ++ pyStrOfStrOpt block_hash }
  else if block_number.isSome then
    .error { message :=
      "No state updates saved for the provided block number " ++ pyStrOfIntOpt block_number }
  else
    .ok none

/-- Python `hex(n)`: `0x`-prefixed lowercase hexadecimal, `-0x…` for
negative `n`. -/
def pyHex (n : Int) : String :=
  if n < 0 then "-0x" ++ String.mk (Nat.toDigits 16 (-n).toNat)
  else "0x" ++ String.mk (Nat.toDigits 16 n.toNat)

/-- `NullOrigin.get_storage_at` of `origin.py`: `hex(0)` for every address
and key. -/
def NullOrigin.get_storage_at (contract_address : Int) (key : Int) : String :=
  pyHex 0

/-- `NullOrigin.get_number_of_blocks` of `origin.py`. -/
def NullOrigin.get_number_of_blocks : Int := 0

/-- A Python value as stored in `ForkedOrigin.number_of_blocks`: the
constructor stores the `Ellipsis` literal (`...`), never an integer block
count, in this slice. -/
inductive PyValue where
  | ellipsis
  | int (n : Int)

/-- Is the stored value an integer (an actual block count)? -/
def PyValue.isInt : PyValue → Bool
  | .int _ => true
  | .ellipsis => false

/-- `ForkedOrigin` of `origin.py`: the remote url and the
`number_of_blocks` attribute. -/
structure ForkedOrigin where
  url : String
  number_of_blocks : PyValue

/-- `ForkedOrigin.__init__`: stores the url and sets `number_of_blocks`
to the `Ellipsis` placeholder (`self.number_of_blocks = ...`). -/
def ForkedOrigin.init (url : String) : ForkedOrigin :=
  { url := url, number_of_blocks := PyValue.ellipsis }

/-- `ForkedOrigin.get_number_of_blocks`: returns the stored attribute. -/
def ForkedOrigin.get_number_of_blocks (o : ForkedOrigin) : PyValue :=
  o.number_of_blocks

/-- Per-entry check for the prefix-deletion property of name resolution:
the bare name, the prefixed name and even a doubly-prefixed name all
resolve to the entry's handler. -/
def resolvesAllPrefixForms (p : String × Handler) : Bool :=
  decide (lookupHandler methods (pyReplace p.1 "starknet_" "") = some p.2)
  && decide (lookupHandler methods (pyReplace ("starknet_" ++ p.1) "starknet_" "") = some p.2)
  && decide (lookupHandler methods (pyReplace ("starknet_starknet_" ++ p.1) "starknet_" "") = some p.2)

lemma all_entries_resolve_all_prefix_forms :
    methods.all resolvesAllPrefixForms = true := by decide

/-- C9: `NullOrigin.get_storage_at` returns the zero value `"0x0"` for
every contract address and every storage key. -/
theorem null_origin_storage_at_always_zero (contract_address key : Int) :
    NullOrigin.get_storage_at contract_address key = "0x0" := rfl

/-- C7: `NullOrigin.get_state_update` fails with a NotFound error naming
the requested block hash when one is given, fails with a NotFound error
naming the requested block number when one is given (and no hash), and
returns the no-data value `None` without raising when neither is given. -/
theorem null_origin_state_update_cases :
    (∀ (h : String) (block_number : Option Int), h ≠ "" →
      NullOrigin.get_state_update (some h) block_number =
        .error { message := "No state updates saved for the provided block hash " ++ h })
    ∧ (∀ n : Int,
      NullOrigin.get_state_update none (some n) =
        .error { message := "No state updates saved for the provided block number " ++ toString n })
    ∧ NullOrigin.get_state_update none none = .ok none := by
  refine ⟨?_, ?_, rfl⟩
  · intro h block_number hne
    simp [NullOrigin.get_state_update, pyTruthyStrOpt, pyStrOfStrOpt, hne]
  · intro n
    simp [NullOrigin.get_state_update, pyTruthyStrOpt, pyStrOfIntOpt]

/-- C7 witness: concrete instances of all three branches. -/
theorem null_origin_state_update_cases_witness :
    NullOrigin.get_state_update (some "0x1a") none =
      .error { message := "No state updates saved for the provided block hash 0x1a" }
    ∧ NullOrigin.get_state_update none (some 0) =
      .error { message := "No state updates saved for the provided block number 0" }
    ∧ NullOrigin.get_state_update none none = .ok none :=
  ⟨null_origin_state_update_cases.1 "0x1a" none (by decide),
   null_origin_state_update_cases.2.1 0,
   null_origin_state_update_cases.2.2⟩

/-- C8 counterexample: a freshly constructed `ForkedOrigin` has not cached
any block count — `get_number_of_blocks` returns the `Ellipsis`
placeholder, which is not an integer block count. -/
theorem forked_origin_block_count_counterexample :
    (ForkedOrigin.init "http://remote.example").get_number_of_blocks = PyValue.ellipsis
    ∧ PyValue.isInt (ForkedOrigin.init "http://remote.example").get_number_of_blocks = false :=
  ⟨rfl, rfl⟩

/-- C8 amended: for every `ForkedOrigin`, `get_number_of_blocks` returns
exactly the value stored by the constructor — which is the `Ellipsis`
placeholder, never a fetched block count — and, no operation of this slice
mutating the field, every call returns that same stored value. -/
theorem forked_origin_block_count_is_constructed_value (url : String) :
    (ForkedOrigin.init url).get_number_of_blocks = (ForkedOrigin.init url).number_of_blocks
    ∧ (ForkedOrigin.init url).get_number_of_blocks = PyValue.ellipsis :=
  ⟨rfl, rfl⟩

/-- C10: for every registered bare method name, the bare name, the
`starknet_`-prefixed name, and even a doubly-prefixed name all resolve to
the same handler, because resolution deletes every occurrence of the
substring `starknet_` rather than stripping one leading prefix. -/
theorem bare_and_prefixed_names_resolve_same_handler (name : String)
    (handler : Handler) (hmem : (name, handler) ∈ methods) :
    lookupHandler methods (pyReplace name "starknet_" "") = some handler
    ∧ lookupHandler methods (pyReplace ("starknet_" ++ name) "starknet_" "") = some handler
    ∧ lookupHandler methods (pyReplace ("starknet_starknet_" ++ name) "starknet_" "") = some handler := by
  have h := List.all_eq_true.mp all_entries_resolve_all_prefix_forms _ hmem
  simp only [resolvesAllPrefixForms, Bool.and_eq_true, decide_eq_true_eq] at h
  exact ⟨h.1.1, h.1.2, h.2⟩

/-- C10 witness: the registered name `chainId` resolves to the `chain_id`
handler bare, prefixed and doubly prefixed. -/
theorem bare_and_prefixed_names_resolve_same_handler_witness :
    lookupHandler methods (pyReplace "chainId" "starknet_" "") = some Handler.chain_id
    ∧ lookupHandler methods (pyReplace "starknet_chainId" "starknet_" "") = some Handler.chain_id
    ∧ lookupHandler methods (pyReplace "starknet_starknet_chainId" "starknet_" "") = some Handler.chain_id :=
  bare_and_prefixed_names_resolve_same_handler "chainId" Handler.chain_id (by decide)

lemma base_route_ok (invoke : Handler → Binding → CallResult) (body : Json)
    (handler : Handler) (params message_id : Json)
    (hp : parse_body body = .ok (handler, params, message_id)) :
    base_route invoke body = respondCall (dispatchCall invoke handler params) message_id := by
  simp [base_route, hp]

/-- An invoke function that returns the binding it received, making the
binding mode observable in the response. -/
def recordInvoke : Handler → Binding → CallResult :=
  fun _ b =>
    match b with
    | .positional xs => .ok (.arr xs)
    | .named kwargs => .ok (.obj kwargs)

/-- C1 counterexample: the request `{method: "starknet_unknownMethod",
params: [], id: 5}` receives an error response whose id is `null`, not the
request's id `5` — `parse_body` raises before the tuple assignment binds
`message_id`, so the partially-parsed id never reaches the envelope. -/
theorem response_id_mismatch_counterexample :
    base_route (fun _ _ => .ok .null)
      (.obj [("method", .str "starknet_unknownMethod"), ("params", .arr []), ("id", .num 5)]) =
      .response (rpc_error .null RpcErrorCode.METHOD_NOT_FOUND.value "Method not found")
    ∧ responseId (rpc_error .null RpcErrorCode.METHOD_NOT_FOUND.value "Method not found") =
      some .null
    ∧ lookupField [("method", .str "starknet_unknownMethod"), ("params", .arr []),
        ("id", .num 5)] "id" = some (.num 5)
    ∧ Json.isNull (.num 5) = false ∧ Json.isNull .null = true :=
  ⟨rfl, rfl, rfl, rfl, rfl⟩

/-- C1 amended: whenever the request parses successfully (method present
and registered, id present, params of acceptable shape), every enveloped
response — result, handler-raised `RpcError`, or binding-failure error —
carries exactly the request's id, including an explicitly null id; only
responses produced while parsing carry a null id instead. -/
theorem response_id_echoes_request_id (invoke : Handler → Binding → CallResult)
    (fields : List (String × Json)) (method_str : String) (handler : Handler)
    (idv : Json)
    (hm : lookupField fields "method" = some (.str method_str))
    (hreg : lookupHandler methods (pyReplace method_str "starknet_" "") = some handler)
    (hid : lookupField fields "id" = some idv)
    (hshape : jsonIsListOrDict (normalizeParams (pyGetField (.obj fields) "params")) = true) :
    ∀ resp, base_route invoke (.obj fields) = .response resp →
      responseId resp = some idv := by
  intro resp hresp
  have hpb : parse_body (.obj fields) =
      .ok (handler, normalizeParams (pyGetField (.obj fields) "params"), idv) := by
    simp [parse_body, parse_body_extract, pySubscript, hm, hid,
      catchRuntimeErrorAsInvalidRequest, hreg, hshape]
  rw [base_route_ok invoke (.obj fields) handler _ idv hpb] at hresp
  cases hc : dispatchCall invoke handler
      (normalizeParams (pyGetField (.obj fields) "params")) with
  | ok v =>
    rw [hc] at hresp
    simp only [respondCall] at hresp
    cases hresp
    rfl
  | raise e =>
    rw [hc] at hresp
    cases e <;> simp only [respondCall] at hresp <;> first
      | (cases hresp; rfl)
      | cases hresp

/-- C1 witness: a successfully dispatched request with an explicitly null
id gets a result response whose id is null. -/
theorem response_id_echoes_request_id_witness :
    responseId (rpc_response Json.null (.str "SN_GOERLI")) = some Json.null := by
  have h := response_id_echoes_request_id (fun _ _ => .ok (.str "SN_GOERLI"))
    [("method", .str "starknet_chainId"), ("params", .arr []), ("id", Json.null)]
    "starknet_chainId" Handler.chain_id Json.null rfl rfl rfl rfl
  exact h (rpc_response Json.null (.str "SN_GOERLI")) rfl

/-- C2: the three malformed-request shapes the claim says must yield
`InvalidRequest` actually fault or map elsewhere: a body lacking `method`
raises an uncaught `KeyError`, a body lacking `id` raises an uncaught
`KeyError`, and a non-object body raises a `TypeError` that the
binding-failure clause turns into a code-22 error — never
`InvalidRequest` (whose value is -32600). -/
theorem missing_field_and_non_object_bodies_fault :
    base_route (fun _ _ => .ok .null) (.obj [("params", .arr []), ("id", .num 1)]) =
      .escaped (.keyError "method")
    ∧ base_route (fun _ _ => .ok .null)
      (.obj [("method", .str "starknet_chainId"), ("params", .arr [])]) =
      .escaped (.keyError "id")
    ∧ base_route (fun _ _ => .ok .null) (.str "not an object") =
      .response (rpc_error .null 22 "string indices must be integers")
    ∧ RpcErrorCode.INVALID_REQUEST.value = -32600 :=
  ⟨rfl, rfl, rfl, rfl⟩

/-- C3: a handler-raised `RpcError` passes through with its code and
message unchanged; any raised exception that is neither a `TypeError` nor
an `RpcError` escapes the dispatcher uncaught; and the process-wide
fallback for `StarkException` renders a bare object with only `message`
and `status_code` — no JSON-RPC envelope (no `id` field). -/
theorem rpc_error_passthrough_and_unexpected_fault_escape
    (invoke : Handler → Binding → CallResult) (body : Json) (handler : Handler)
    (params message_id : Json)
    (hp : parse_body body = .ok (handler, params, message_id)) :
    (∀ code message,
      dispatchCall invoke handler params = .raise (.rpcError code message) →
      base_route invoke body = .response (rpc_error message_id code message))
    ∧ (∀ e : Exc, e.isTypeError = false → e.isRpcError = false →
      dispatchCall invoke handler params = .raise e →
      base_route invoke body = .escaped e)
    ∧ (∀ message status_code,
      handle { message := message, status_code := status_code } =
        (.obj [("message", .str message), ("status_code", .num status_code)], status_code)
      ∧ responseId (.obj [("message", .str message), ("status_code", .num status_code)]) =
        none) := by
  refine ⟨?_, ?_, ?_⟩
  · intro code message hc
    simp [base_route, hp, hc, respondCall]
  · intro e ht hr hc
    rw [base_route_ok invoke body handler params message_id hp, hc]
    cases e <;> simp_all [Exc.isTypeError, Exc.isRpcError, respondCall]
  · intro message status_code
    exact ⟨rfl, rfl⟩

/-- C3 witness: a handler raising `RpcError(24, "Block not found")` gets it
echoed in the envelope; a handler raising a `StarkException` escapes the
dispatcher, and the fallback renders the bare two-field object. -/
theorem rpc_error_passthrough_and_unexpected_fault_escape_witness :
    base_route (fun _ _ => .raise (.rpcError 24 "Block not found"))
      (.obj [("method", .str "starknet_getBlockWithTxs"), ("params", .obj []), ("id", .num 2)]) =
      .response (rpc_error (.num 2) 24 "Block not found")
    ∧ base_route (fun _ _ => .raise (.starkException "Block hash not found; got: 0x0." 500))
      (.obj [("method", .str "starknet_getBlockWithTxs"), ("params", .obj []), ("id", .num 2)]) =
      .escaped (.starkException "Block hash not found; got: 0x0." 500)
    ∧ handle { message := "Block hash not found; got: 0x0.", status_code := 500 } =
      (.obj [("message", .str "Block hash not found; got: 0x0."), ("status_code", .num 500)],
       500) := by
  refine ⟨?_, ?_, ?_⟩
  · exact (rpc_error_passthrough_and_unexpected_fault_escape
      (fun _ _ => .raise (.rpcError 24 "Block not found"))
      (.obj [("method", .str "starknet_getBlockWithTxs"), ("params", .obj []), ("id", .num 2)])
      Handler.get_block_with_txs (.obj []) (.num 2) rfl).1 24 "Block not found" rfl
  · exact (rpc_error_passthrough_and_unexpected_fault_escape
      (fun _ _ => .raise (.starkException "Block hash not found; got: 0x0." 500))
      (.obj [("method", .str "starknet_getBlockWithTxs"), ("params", .obj []), ("id", .num 2)])
      Handler.get_block_with_txs (.obj []) (.num 2) rfl).2.1 _ rfl rfl rfl
  · exact ((rpc_error_passthrough_and_unexpected_fault_escape
      (fun _ _ => .raise (.starkException "Block hash not found; got: 0x0." 500))
      (.obj [("method", .str "starknet_getBlockWithTxs"), ("params", .obj []), ("id", .num 2)])
      Handler.get_block_with_txs (.obj []) (.num 2) rfl).2.2
      "Block hash not found; got: 0x0." 500).1

/-- C4 counterexample: a `params` field that is the number `0` — a scalar
the claim says must yield `InvalidParams` — is falsy, so `params or {}`
silently normalizes it to the empty mapping and the request dispatches
successfully with no error at all. -/
theorem falsy_scalar_params_counterexample :
    base_route (fun _ _ => .ok (.num 11))
      (.obj [("method", .str "starknet_blockNumber"), ("params", .num 0), ("id", .num 3)]) =
      .response (rpc_response (.num 3) (.num 11))
    ∧ outcomeIsError (base_route (fun _ _ => .ok (.num 11))
      (.obj [("method", .str "starknet_blockNumber"), ("params", .num 0), ("id", .num 3)])) =
      false :=
  ⟨rfl, rfl⟩

/-- C4 amended: for a request with a registered method and an id, a
nonempty array `params` binds positionally and a nonempty object binds by
name; a truthy scalar (nonempty string, nonzero number, `true`) yields an
`InvalidParams` error (with a null id, raised while parsing); and an
absent or null `params` — like every falsy value, `0`, `""`, `false` and
the empty array included — normalizes to the empty mapping. -/
theorem params_binding_modes (invoke : Handler → Binding → CallResult)
    (fields : List (String × Json)) (method_str : String) (handler : Handler)
    (idv : Json)
    (hm : lookupField fields "method" = some (.str method_str))
    (hreg : lookupHandler methods (pyReplace method_str "starknet_" "") = some handler)
    (hid : lookupField fields "id" = some idv) :
    (∀ xs, lookupField fields "params" = some (.arr xs) → xs ≠ [] →
      base_route invoke (.obj fields) = respondCall (invoke handler (.positional xs)) idv)
    ∧ (∀ kwargs, lookupField fields "params" = some (.obj kwargs) → kwargs ≠ [] →
      base_route invoke (.obj fields) = respondCall (invoke handler (.named kwargs)) idv)
    ∧ (∀ v, lookupField fields "params" = some v → jsonTruthy v = true →
      jsonIsListOrDict v = false →
      base_route invoke (.obj fields) =
        .response (rpc_error .null RpcErrorCode.INVALID_PARAMS.value "Invalid params"))
    ∧ ((lookupField fields "params" = none ∨ lookupField fields "params" = some .null) →
      base_route invoke (.obj fields) = respondCall (invoke handler (.named [])) idv) := by
  refine ⟨?_, ?_, ?_, ?_⟩
  · intro xs hp hxs
    simp [base_route, parse_body, parse_body_extract, pySubscript, hm, hid, hp,
      catchRuntimeErrorAsInvalidRequest, hreg, pyGetField, normalizeParams,
      jsonTruthy, jsonIsListOrDict, dispatchCall, hxs]
  · intro kwargs hp hkw
    simp [base_route, parse_body, parse_body_extract, pySubscript, hm, hid, hp,
      catchRuntimeErrorAsInvalidRequest, hreg, pyGetField, normalizeParams,
      jsonTruthy, jsonIsListOrDict, dispatchCall, hkw]
  · intro v hp htr hsh
    simp [base_route, parse_body, parse_body_extract, pySubscript, hm, hid, hp,
      catchRuntimeErrorAsInvalidRequest, hreg, pyGetField, normalizeParams,
      htr, hsh]
  · intro hp
    rcases hp with hp | hp <;>
      simp [base_route, parse_body, parse_body_extract, pySubscript, hm, hid, hp,
        catchRuntimeErrorAsInvalidRequest, hreg, pyGetField, normalizeParams,
        jsonTruthy, jsonIsListOrDict, dispatchCall]

/-- C4 witness: an array `params` reaches the handler positionally; an
absent `params` reaches it as the empty mapping. -/
theorem params_binding_modes_witness :
    base_route recordInvoke
      (.obj [("method", .str "starknet_getStorageAt"),
        ("params", .arr [.str "0x1", .str "0x2", .str "latest"]), ("id", .num 3)]) =
      respondCall
        (recordInvoke Handler.get_storage_at
          (.positional [.str "0x1", .str "0x2", .str "latest"])) (.num 3)
    ∧ base_route recordInvoke
      (.obj [("method", .str "starknet_getNonce"), ("id", .num 6)]) =
      respondCall (recordInvoke Handler.get_nonce (.named [])) (.num 6) := by
  constructor
  · exact (params_binding_modes recordInvoke
      [("method", .str "starknet_getStorageAt"),
        ("params", .arr [.str "0x1", .str "0x2", .str "latest"]), ("id", .num 3)]
      "starknet_getStorageAt" Handler.get_storage_at
      (.num 3) rfl rfl rfl).1 _ rfl (by simp)
  · exact (params_binding_modes recordInvoke
      [("method", .str "starknet_getNonce"), ("id", .num 6)]
      "starknet_getNonce" Handler.get_nonce
      (.num 6) rfl rfl rfl).2.2.2 (Or.inl rfl)

/-- C5: after a successful parse, a parameter-binding failure — surfacing
as a raised `TypeError` — yields an error response with the literal code
22 and the binding-failure description as message, a code distinct from
the schema-level `InvalidParams` value. -/
theorem binding_failure_yields_code_22 (invoke : Handler → Binding → CallResult)
    (body : Json) (handler : Handler) (params message_id : Json) (msg : String)
    (hp : parse_body body = .ok (handler, params, message_id))
    (hc : dispatchCall invoke handler params = .raise (.typeError msg)) :
    base_route invoke body = .response (rpc_error message_id 22 msg)
    ∧ (22 : Int) ≠ RpcErrorCode.INVALID_PARAMS.value := by
  constructor
  · simp [base_route, hp, hc, respondCall]
  · decide

/-- C5 witness: a wrong-arity call on `chainId` produces the code-22
envelope carrying the binding-failure description. -/
theorem binding_failure_yields_code_22_witness :
    base_route (fun _ _ => .raise (.typeError "chain_id() takes 0 positional arguments but 2 were given"))
      (.obj [("method", .str "starknet_chainId"),
        ("params", .arr [.num 1, .num 2]), ("id", .num 4)]) =
      .response (rpc_error (.num 4) 22
        "chain_id() takes 0 positional arguments but 2 were given") :=
  (binding_failure_yields_code_22
    (fun _ _ => .raise (.typeError "chain_id() takes 0 positional arguments but 2 were given"))
    (.obj [("method", .str "starknet_chainId"),
      ("params", .arr [.num 1, .num 2]), ("id", .num 4)])
    Handler.chain_id (.arr [.num 1, .num 2]) (.num 4)
    "chain_id() takes 0 positional arguments but 2 were given" rfl rfl).1

/-- C6 counterexample: the request `{method: "starknet_traceTransaction",
id: 7}` hits an unregistered name; the response carries the right code and
message but its id is `null`, never the request's id `7` — the
partially-parsed id is not echoed, contrary to the claim's "echoed when
available". -/
theorem method_not_found_id_counterexample :
    base_route (fun _ _ => .ok .null)
      (.obj [("method", .str "starknet_traceTransaction"), ("id", .num 7)]) =
      .response (rpc_error .null RpcErrorCode.METHOD_NOT_FOUND.value "Method not found")
    ∧ responseId (rpc_error .null RpcErrorCode.METHOD_NOT_FOUND.value "Method not found") =
      some .null
    ∧ Json.isNull (.num 7) = false :=
  ⟨rfl, rfl, rfl⟩

/-- C6 amended: a request whose method field is a string resolving to no
registered name (and whose id field is present, so extraction does not
fault first) receives an error response with code `MethodNotFound`,
message exactly `"Method not found"`, and an id that is always null. -/
theorem method_not_found_response (invoke : Handler → Binding → CallResult)
    (fields : List (String × Json)) (method_str : String) (idv : Json)
    (hm : lookupField fields "method" = some (.str method_str))
    (hreg : lookupHandler methods (pyReplace method_str "starknet_" "") = none)
    (hid : lookupField fields "id" = some idv) :
    base_route invoke (.obj fields) =
      .response (rpc_error .null RpcErrorCode.METHOD_NOT_FOUND.value "Method not found") := by
  simp [base_route, parse_body, parse_body_extract, pySubscript, hm, hid,
    catchRuntimeErrorAsInvalidRequest, hreg]

/-- C6 witness: a concrete unregistered method name. -/
theorem method_not_found_response_witness :
    base_route (fun _ _ => .ok .null)
      (.obj [("method", .str "starknet_getStateRoot"), ("id", .num 9)]) =
      .response (rpc_error .null RpcErrorCode.METHOD_NOT_FOUND.value "Method not found") :=
  method_not_found_response (fun _ _ => .ok .null)
    [("method", .str "starknet_getStateRoot"), ("id", .num 9)]
    "starknet_getStateRoot" (.num 9) rfl rfl rfl
